import Mathlib

/-!
Shallow embedding of the MiniSlotGameReactJS sources
(src/slot-game/src/App.js and src/slot-game/src/GameCanvas.jsx).

App.js holds the round controller (credits, spin-lock, payline
evaluation); GameCanvas.jsx holds the reel engine.  Of the two
engine variants in the repository, the tick-based one (spinReels /
updateSpin / getResult / highlightPaylines driven by the Pixi
ticker) is embedded here, matching the spec, which designates the
tick-based contract as canonical.

Number representation: reel positions advance by 0.3 per tick and
targets are integers, so positions are kept in tenths (a Nat),
pixel y-coordinates in tenths of a pixel.  JS float drift (0.3 is
not exactly representable) is far below the margins at every
comparison the claims exercise, so exact arithmetic is faithful.
JS NaN propagation from the missing PAYOUTS.jackpot key is
modelled explicitly by the JsNum type.
-/

namespace SlotGame

/-- The symbol alphabet, `SYMBOLS = ["cherry", "lemon", "bar", "seven"]`
in GameCanvas.jsx. -/
inductive Symbol
  | cherry
  | lemon
  | bar
  | seven
deriving DecidableEq, Repr

/-- The list literal `SYMBOLS` from GameCanvas.jsx. -/
def SYMBOLS : List Symbol :=
  [Symbol.cherry, Symbol.lemon, Symbol.bar, Symbol.seven]

/-- A 3x3 settled grid, indexed grid row column, row 0 on top:
the shape of the value `getResult()` returns in GameCanvas.jsx. -/
abbrev Grid := Fin 3 → Fin 3 → Symbol

/-- A winning-line descriptor as pushed into `winningLines` by
`handleSpinEnd` in App.js: a row `{type: "row", row}` or one of the
two diagonals `{type: "diag1"}` / `{type: "diag2"}`. -/
inductive PayLine
  | row (r : Fin 3)
  | diag1
  | diag2
deriving DecidableEq, Repr

/-- A JS number that may be NaN.  Needed because App.js reads the
absent key `PAYOUTS.jackpot` (JS `undefined`) and adds it to
`totalWin`, which produces NaN. -/
inductive JsNum
  | num (n : Int)
  | nan
deriving DecidableEq, Repr

/-- JS `x + v` where `x` is a number-or-NaN and `v` is a
possibly-undefined number: adding `undefined` gives NaN, and NaN
propagates through further additions. -/
def JsNum.addOpt : JsNum → Option Int → JsNum
  | JsNum.num a, some b => JsNum.num (a + b)
  | _, _ => JsNum.nan

/-- JS `x > 0` (the `totalWin > 0` test in App.js): false for NaN. -/
def JsNum.gtZero : JsNum → Bool
  | JsNum.num n => decide (0 < n)
  | JsNum.nan => false

/-- Numeric value of a JsNum.  Only applied in `handleSpinEnd`
under the `gtZero` guard, where the value cannot be NaN. -/
def JsNum.toInt : JsNum → Int
  | JsNum.num n => n
  | JsNum.nan => 0

/-- The payout table object of App.js.  The source literal defines
only the keys `row: 30` and `diag: 50`; there is no `jackpot` key,
so reading `PAYOUTS.jackpot` yields `undefined`, modelled as
`none`. -/
structure PayoutTable where
  row : Option Int
  diag : Option Int
  jackpot : Option Int

/-- `const PAYOUTS = { row: 30, diag: 50 }` from App.js. -/
def PAYOUTS : PayoutTable :=
  { row := some 30, diag := some 50, jackpot := none }

/-- Accumulator threaded through the payline checks of
`handleSpinEnd`: `totalWin`, `winningLines`, `messages`. -/
structure EvalOutcome where
  totalWin : JsNum
  winningLines : List PayLine
  messages : List String
deriving DecidableEq, Repr

/-- One iteration of the `for (let row = 0; row < 3; row++)` loop
of `handleSpinEnd`: if the three cells of row `r` are equal, add
`PAYOUTS.jackpot` when the common symbol is seven, else
`PAYOUTS.row`, and record the line and a message. -/
def checkRow (g : Grid) (r : Fin 3) (acc : EvalOutcome) : EvalOutcome :=
  let a := g r 0
  let b := g r 1
  let c := g r 2
  if a = b ∧ b = c then
    if a = Symbol.seven then
      { totalWin := acc.totalWin.addOpt PAYOUTS.jackpot
        winningLines := acc.winningLines ++ [PayLine.row r]
        messages := acc.messages ++ ["JACKPOT! Row " ++ toString (r.val + 1) ++ " with 7-7-7"] }
    else
      { totalWin := acc.totalWin.addOpt PAYOUTS.row
        winningLines := acc.winningLines ++ [PayLine.row r]
        messages := acc.messages ++ ["Row " ++ toString (r.val + 1) ++ " win"] }
  else acc

/-- The diagonal check on cells [0][0], [1][1], [2][2] of
`handleSpinEnd`. -/
def checkDiag1 (g : Grid) (acc : EvalOutcome) : EvalOutcome :=
  if g 0 0 = g 1 1 ∧ g 1 1 = g 2 2 then
    if g 0 0 = Symbol.seven then
      { totalWin := acc.totalWin.addOpt PAYOUTS.jackpot
        winningLines := acc.winningLines ++ [PayLine.diag1]
        messages := acc.messages ++ ["JACKPOT! Diagonal DR with 7-7-7"] }
    else
      { totalWin := acc.totalWin.addOpt PAYOUTS.diag
        winningLines := acc.winningLines ++ [PayLine.diag1]
        messages := acc.messages ++ ["Diagonal DR win"] }
  else acc

/-- The diagonal check on cells [0][2], [1][1], [2][0] of
`handleSpinEnd`. -/
def checkDiag2 (g : Grid) (acc : EvalOutcome) : EvalOutcome :=
  if g 0 2 = g 1 1 ∧ g 1 1 = g 2 0 then
    if g 0 2 = Symbol.seven then
      { totalWin := acc.totalWin.addOpt PAYOUTS.jackpot
        winningLines := acc.winningLines ++ [PayLine.diag2]
        messages := acc.messages ++ ["JACKPOT! Diagonal DL with 7-7-7"] }
    else
      { totalWin := acc.totalWin.addOpt PAYOUTS.diag
        winningLines := acc.winningLines ++ [PayLine.diag2]
        messages := acc.messages ++ ["Diagonal DL win"] }
  else acc

/-- The full evaluation pass of `handleSpinEnd` over a settled
grid: rows 0, 1, 2 in order, then the two diagonals, starting from
`totalWin = 0` and empty line/message lists. -/
def evaluateGrid (g : Grid) : EvalOutcome :=
  checkDiag2 g (checkDiag1 g (checkRow g 2 (checkRow g 1 (checkRow g 0
    { totalWin := JsNum.num 0, winningLines := [], messages := [] }))))

/-- The two failure modes of `handleSpin` in App.js: the early
`if (spinning) return` and the `if (credits < 10) alert(...)`. -/
inductive SpinError
  | SpinInProgress
  | InsufficientCredits
deriving DecidableEq, Repr

/-- React state owned by App.js, plus the canvas-side effects it
requests: `highlights` mirrors the contents of the highlight layer
as last requested through `highlightPaylines`, and `spinsStarted`
counts invocations of `spinReels()` (so that "no second animation
is started" is expressible). -/
structure RoundState where
  credits : Int
  spinning : Bool
  winMessages : List String
  highlights : List PayLine
  spinsStarted : Nat
deriving DecidableEq, Repr

/-- `handleSpin` from App.js.  Checks the spin-lock, then the
balance; on success it debits the bet of 10, clears highlights,
sets the lock and starts the reel animation.  The two early
returns are reported as the corresponding SpinError, with the
state returned unchanged. -/
def handleSpin (s : RoundState) : RoundState × Option SpinError :=
  if s.spinning then (s, some SpinError.SpinInProgress)
  else if s.credits < 10 then (s, some SpinError.InsufficientCredits)
  else
    ({ s with
        credits := s.credits - 10
        highlights := []
        spinning := true
        spinsStarted := s.spinsStarted + 1 }, none)

/-- `handleSpinEnd` from App.js, applied to the value of
`gameRef.current?.getResult()` (none when the engine ref is not
available and `getResult` gave null).  On a null result it only
releases the lock.  Otherwise it evaluates the grid; on
`totalWin > 0` it credits the win, highlights the winning lines
and posts the win messages, else it clears highlights and posts
the losing message.  Either way the lock is released. -/
def handleSpinEnd (s : RoundState) (result : Option Grid) : RoundState :=
  match result with
  | none => { s with spinning := false }
  | some g =>
    let ev := evaluateGrid g
    if ev.totalWin.gtZero then
      { s with
          credits := s.credits + ev.totalWin.toInt
          highlights := ev.winningLines
          winMessages :=
            ("You win " ++ toString ev.totalWin.toInt ++ " credits!") :: ev.messages
          spinning := false }
    else
      { s with
          highlights := []
          winMessages := ["No win this time. Try again!"]
          spinning := false }

/-! ## Reel engine (tick-based GameCanvas.jsx variant)

One sprite is a Pixi sprite carrying its clean symbol name
(`sprite.__symbol`) and its y coordinate.  Distances are stored in
tenths: `pos10` is ten times the `reel.position` counter (which the
source advances by 0.3 per tick), `target10` is ten times
`reel.target`, and `y10` is ten times the pixel y coordinate.
SYMBOL_SIZE = 100 px and ROWS = 3, so one row is 1000 y-tenths and
the wrap modulus ROWS * SYMBOL_SIZE = 300 px is 3000 y-tenths.

Randomness is supplied as explicit inputs: `rnd i` stands for the
`Math.floor(Math.random() * 10)` draw used for the target of reel
`i` in `spinReels`, and the stream `rng : Nat → Symbol` (with a
cursor `rngIdx` in the engine) stands for the successive
`randSymbol()` draws that the recycle branch of `updateSpin` would
consume. -/

/-- One reel sprite: its stored symbol name and y position in
tenths of a pixel. -/
structure Sprite where
  sym : Symbol
  y10 : Nat
deriving DecidableEq, Repr

/-- One reel of the tick-based engine: its three sprites (indexed
top-to-bottom at creation time) and the per-reel animation fields
`spinning`, `position`, `target` that `spinReels` installs. -/
structure Reel where
  sp : Fin 3 → Sprite
  spinning : Bool
  pos10 : Nat
  target10 : Nat

/-- Whole engine state: the three reels, whether `updateSpin` is
currently registered on the Pixi ticker, how many times the
`onSpinEnd` notification has fired during the current spin
(instrumentation for the completion-signal claims), and the cursor
into the `randSymbol()` stream. -/
structure Engine where
  reels : Fin 3 → Reel
  tickerActive : Bool
  spinEnds : Nat
  rngIdx : Nat

/-- The per-sprite body of `updateSpin`:
`sprite.y = ((j*100 + position*100) % 300) + 50` followed by the
recycle branch `if (sprite.y < 0) { sprite.y += 300;
setSpriteSymbol(sprite, randSymbol()); }`.  Returns the updated
sprite and rng cursor. -/
def tickSprite (rng : Nat → Symbol) (pos10 : Nat) (j : Nat) (s : Sprite)
    (idx : Nat) : Sprite × Nat :=
  let y := (j * 1000 + pos10 * 100) % 3000 + 500
  if y < 0 then
    ({ sym := rng idx, y10 := y + 3000 }, idx + 1)
  else
    ({ s with y10 := y }, idx)

/-- The per-reel body of `updateSpin`: advance `position` by 0.3,
clamp at `target` (clearing `spinning`), then reposition the three
sprites. -/
def tickReel (rng : Nat → Symbol) (r : Reel) (idx : Nat) : Reel × Nat :=
  if r.spinning then
    let stopped : Bool := decide (r.target10 ≤ r.pos10 + 3)
    let p : Nat := if stopped then r.target10 else r.pos10 + 3
    let t0 := tickSprite rng p 0 (r.sp 0) idx
    let t1 := tickSprite rng p 1 (r.sp 1) t0.2
    let t2 := tickSprite rng p 2 (r.sp 2) t1.2
    ({ sp := ![t0.1, t1.1, t2.1]
       spinning := !stopped
       pos10 := p
       target10 := r.target10 }, t2.2)
  else (r, idx)

/-- The forEach body of `updateSpin` over the three reels in
order, threading the `randSymbol()` cursor left to right. -/
def tickReels (rng : Nat → Symbol) (e : Engine) : Engine :=
  { e with
      reels :=
        ![(tickReel rng (e.reels 0) e.rngIdx).1,
          (tickReel rng (e.reels 1) (tickReel rng (e.reels 0) e.rngIdx).2).1,
          (tickReel rng (e.reels 2)
            (tickReel rng (e.reels 1) (tickReel rng (e.reels 0) e.rngIdx).2).2).1]
      rngIdx :=
        (tickReel rng (e.reels 2)
          (tickReel rng (e.reels 1) (tickReel rng (e.reels 0) e.rngIdx).2).2).2 }

/-- One ticker callback of `updateSpin`: the local `spinning` flag
it accumulates equals the disjunction of the per-reel flags on
entry (each reel's flag is read before that reel is advanced);
every spinning reel is advanced, and if none was spinning the
callback removes itself from the ticker and fires the `onSpinEnd`
notification. -/
def updateSpin (rng : Nat → Symbol) (e : Engine) : Engine :=
  if (e.reels 0).spinning || (e.reels 1).spinning || (e.reels 2).spinning then
    tickReels rng e
  else
    { tickReels rng e with tickerActive := false, spinEnds := e.spinEnds + 1 }

/-- `spinReels` from the tick-based engine: for each reel set
`spinning = true`, `position = 0`,
`target = 20 + i*5 + Math.floor(Math.random()*10)` (the random draw
supplied as `rnd i`), then register `updateSpin` on the ticker.
`spinEnds` is reset so that it counts notifications of the spin
being started. -/
def spinReels (rnd : Fin 3 → Nat) (e : Engine) : Engine :=
  { e with
      reels := fun i =>
        { e.reels i with
            spinning := true
            pos10 := 0
            target10 := (20 + i.val * 5 + rnd i) * 10 }
      tickerActive := true
      spinEnds := 0 }

/-- One frame of the Pixi ticker: it invokes `updateSpin` exactly
while that callback is registered. -/
def step (rng : Nat → Symbol) (e : Engine) : Engine :=
  if e.tickerActive then updateSpin rng e else e

/-- `n` ticker frames. -/
def run (rng : Nat → Symbol) (n : Nat) (e : Engine) : Engine :=
  (step rng)^[n] e

/-- Insert a sprite into a y-sorted list, preserving the relative
order of equal keys (the stable `sort((a, b) => a.y - b.y)` of
`getResult`). -/
def insertByY (s : Sprite) : List Sprite → List Sprite
  | [] => [s]
  | t :: ts => if s.y10 < t.y10 then s :: t :: ts else t :: insertByY s ts

/-- Stable insertion sort by y. -/
def sortedByY (l : List Sprite) : List Sprite := l.foldr insertByY []

/-- The `[...reel.sprites].sort((a, b) => a.y - b.y)` step of
`getResult`, read back as the (top, middle, bottom) symbols of one
reel.  The fallback case is unreachable: sorting a 3-element list
yields a 3-element list. -/
def colSyms (r : Reel) : Symbol × Symbol × Symbol :=
  match sortedByY [r.sp 0, r.sp 1, r.sp 2] with
  | [t, m, b] => (t.sym, m.sym, b.sym)
  | _ => (Symbol.cherry, Symbol.cherry, Symbol.cherry)

/-- `getResult` from the tick-based engine: for each reel, sort its
sprites by the current y coordinate and read the rows off the
sorted order.  Note it is total in the engine state: no check of
the `spinning` flags guards it. -/
def getResult (e : Engine) : Grid :=
  ![![(colSyms (e.reels 0)).1, (colSyms (e.reels 1)).1, (colSyms (e.reels 2)).1],
    ![(colSyms (e.reels 0)).2.1, (colSyms (e.reels 1)).2.1, (colSyms (e.reels 2)).2.1],
    ![(colSyms (e.reels 0)).2.2, (colSyms (e.reels 1)).2.2, (colSyms (e.reels 2)).2.2]]

/-- The engine as built by the setup effect: sprite `j` of reel `i`
sits at `y = j*100 + 50` px with the randomly drawn starting symbol
`syms i j`; nothing spins and the ticker callback is not
registered. -/
def initEngine (syms : Fin 3 → Fin 3 → Symbol) : Engine :=
  { reels := fun i =>
      { sp := fun j => { sym := syms i j, y10 := j.val * 1000 + 500 }
        spinning := false
        pos10 := 0
        target10 := 0 }
    tickerActive := false
    spinEnds := 0
    rngIdx := 0 }

/-! ## Highlight layer -/

/-- One Graphics object drawn by `highlightPaylines`: the list of
line segments it received via moveTo/lineTo, in hundredths of a
pixel so that the thirds of the 400-px viewport stay integral
(columnWidth = 400/3 px). -/
structure Overlay where
  segs : List (Int × Int × Int × Int)
deriving DecidableEq, Repr

/-- `rowCenter(r) = VIEWPORT.y + r*SYMBOL_SIZE + SYMBOL_SIZE/2`
in hundredths of a pixel. -/
def rowCenter100 (r : Fin 3) : Int := (80 + r.val * 100 + 50) * 100

/-- Left end `reelCentersX[0] - columnWidth/2 + 10` and right end
`reelCentersX[2] + columnWidth/2 - 10` of a drawn payline, in
hundredths of a pixel (both are exactly 130 px and 510 px). -/
def lineLeft100 : Int := 13000

/-- Right end of a drawn payline in hundredths of a pixel. -/
def lineRight100 : Int := 51000

/-- The Graphics content drawn for one PayLine by
`highlightPaylines`. -/
def renderLine : PayLine → Overlay
  | PayLine.row r =>
      { segs := [(lineLeft100, rowCenter100 r, lineRight100, rowCenter100 r)] }
  | PayLine.diag1 =>
      { segs := [(lineLeft100, rowCenter100 0, lineRight100, rowCenter100 2)] }
  | PayLine.diag2 =>
      { segs := [(lineRight100, rowCenter100 0, lineLeft100, rowCenter100 2)] }

/-- `highlightPaylines(lines)` acting on the highlight layer: a
no-op when the layer ref is not yet set, otherwise
`removeChildren()` followed by adding one Graphics child per given
line (nothing for an empty input). -/
def highlightPaylines (layer : Option (List Overlay)) (lines : List PayLine) :
    Option (List Overlay) :=
  match layer with
  | none => none
  | some _ =>
      if lines.isEmpty then some []
      else some (lines.map renderLine)

/-- The canvas as a whole: the reel engine plus the highlight
layer.  `highlightPaylines` only ever touches the layer. -/
structure Canvas where
  engine : Engine
  layer : Option (List Overlay)

/-- `highlightPaylines` lifted to the whole canvas state. -/
def canvasHighlight (c : Canvas) (lines : List PayLine) : Canvas :=
  { c with layer := highlightPaylines c.layer lines }

/-! ## Concrete fixtures used by the claim theorems -/

/-- A concrete assignment of starting symbols, sprite `j` of reel
`i` being `symsA i j`. -/
def symsA : Fin 3 → Fin 3 → Symbol :=
  ![![Symbol.cherry, Symbol.lemon, Symbol.bar],
    ![Symbol.lemon, Symbol.bar, Symbol.seven],
    ![Symbol.bar, Symbol.seven, Symbol.cherry]]

/-- Target draws all zero: reel targets 20, 25, 30. -/
def rnd0 : Fin 3 → Nat := fun _ => 0

/-- Target draws 9, 0, 0: reel targets 29, 25, 30, so reel 1 stops
before reel 0. -/
def rnd900 : Fin 3 → Nat := ![9, 0, 0]

/-- A constant randSymbol stream (never consumed, as proved
below). -/
def rngC : Nat → Symbol := fun _ => Symbol.cherry

/-- Grid whose only line is an all-seven top row. -/
def g777 : Grid :=
  ![![Symbol.seven, Symbol.seven, Symbol.seven],
    ![Symbol.cherry, Symbol.lemon, Symbol.bar],
    ![Symbol.lemon, Symbol.bar, Symbol.cherry]]

/-- The grid of claim C2: all-seven top row plus an all-bar middle
row, no diagonal line. -/
def gC2 : Grid :=
  ![![Symbol.seven, Symbol.seven, Symbol.seven],
    ![Symbol.bar, Symbol.bar, Symbol.bar],
    ![Symbol.bar, Symbol.lemon, Symbol.cherry]]

/-- Grid whose only line is an all-seven middle row. -/
def gMidSeven : Grid :=
  ![![Symbol.cherry, Symbol.lemon, Symbol.bar],
    ![Symbol.seven, Symbol.seven, Symbol.seven],
    ![Symbol.lemon, Symbol.bar, Symbol.cherry]]

/-- Grid with no winning line at all. -/
def gNoWin : Grid :=
  ![![Symbol.cherry, Symbol.cherry, Symbol.lemon],
    ![Symbol.lemon, Symbol.lemon, Symbol.cherry],
    ![Symbol.cherry, Symbol.cherry, Symbol.lemon]]

/-- The initial React state of App.js: 100 credits, not spinning,
no messages. -/
def s100 : RoundState :=
  { credits := 100, spinning := false, winMessages := [], highlights := [],
    spinsStarted := 0 }

/-- A state in which a spin is in progress. -/
def sSpinning : RoundState :=
  { credits := 50, spinning := true, winMessages := [],
    highlights := [PayLine.row 0], spinsStarted := 1 }

/-- A settled state with credits below the bet of 10. -/
def sPoor : RoundState :=
  { credits := 7, spinning := false, winMessages := ["No win this time. Try again!"],
    highlights := [], spinsStarted := 3 }

/-! ## Specification predicates for the spin run -/

/-- The stop target installed for reel `i` by `spinReels`, in
tenths: `(20 + i*5 + rnd i) * 10`. -/
def targetOf (rnd : Fin 3 → Nat) (i : Fin 3) : Nat :=
  (20 + i.val * 5 + rnd i) * 10

/-- The largest of the three reel targets. -/
def maxTargetOf (rnd : Fin 3 → Nat) : Nat :=
  max (targetOf rnd 0) (max (targetOf rnd 1) (targetOf rnd 2))

/-- State of one reel `n` ticks after `spinReels` started it
towards target `T`: still travelling at position `3n` tenths while
`3n < T`, parked at `T` with its flag cleared afterwards. -/
def ReelRunningAt (T n : Nat) (r : Reel) : Prop :=
  r.target10 = T ∧
  ((r.spinning = true ∧ 3 * n < T ∧ r.pos10 = 3 * n) ∨
   (r.spinning = false ∧ T ≤ 3 * n ∧ r.pos10 = T))

/-- A reel at rest exactly on its target. -/
def ReelStopped (T : Nat) (r : Reel) : Prop :=
  r.spinning = false ∧ r.pos10 = T ∧ r.target10 = T

/-- Invariant of the whole engine `n` ticks into a spin: either
the ticker callback is still registered, no completion has fired
and every reel is in its `ReelRunningAt` state, or the callback
has been removed, the completion fired exactly once — which can
only have happened at a tick by which all three targets were
already reached — and every reel is parked on its target. -/
def EngineInv (rnd : Fin 3 → Nat) (n : Nat) (e : Engine) : Prop :=
  (e.tickerActive = true ∧ e.spinEnds = 0 ∧
    ReelRunningAt (targetOf rnd 0) n (e.reels 0) ∧
    ReelRunningAt (targetOf rnd 1) n (e.reels 1) ∧
    ReelRunningAt (targetOf rnd 2) n (e.reels 2)) ∨
  (e.tickerActive = false ∧ e.spinEnds = 1 ∧
    targetOf rnd 0 ≤ 3 * (n - 1) ∧ targetOf rnd 1 ≤ 3 * (n - 1) ∧
    targetOf rnd 2 ≤ 3 * (n - 1) ∧
    ReelStopped (targetOf rnd 0) (e.reels 0) ∧
    ReelStopped (targetOf rnd 1) (e.reels 1) ∧
    ReelStopped (targetOf rnd 2) (e.reels 2))

/-! ## Claims about the round controller (App.js) -/

/-- C1: the payout table carries the fixed constants row = 30 and
diag = 50, but no jackpot key at all, so on a winning seven-line
`totalWin += PAYOUTS.jackpot` adds `undefined` and `totalWin`
becomes NaN instead of gaining the documented jackpot amount 100:
evaluated on a grid whose only line is an all-seven top row, the
line is recorded but the total is NaN, not 100. -/
theorem payout_jackpot_is_nan :
    PAYOUTS.row = some 30 ∧ PAYOUTS.diag = some 50 ∧ PAYOUTS.jackpot = none ∧
    (evaluateGrid g777).winningLines = [PayLine.row 0] ∧
    (evaluateGrid g777).totalWin = JsNum.nan ∧
    (evaluateGrid g777).totalWin ≠ JsNum.num 100 := by
  decide

/-- C2: on the grid [[seven,seven,seven],[bar,bar,bar],
[bar,lemon,cherry]] the evaluation does visit every line with no
early exit (both winning rows are recorded), but the total payout
is NaN rather than the claimed 130, because the seven-row adds the
absent `PAYOUTS.jackpot`; consequently the spin pays nothing
(NaN > 0 is false). -/
theorem total_payout_c2_grid_is_nan :
    (evaluateGrid gC2).winningLines = [PayLine.row 0, PayLine.row 1] ∧
    (evaluateGrid gC2).totalWin = JsNum.nan ∧
    (evaluateGrid gC2).totalWin ≠ JsNum.num 130 ∧
    (evaluateGrid gC2).totalWin.gtZero = false := by
  decide

/-- C3: starting from 100 credits, a spin debits the bet of 10,
and a non-winning settle leaves 90 credits as claimed; but a spin
settling on an all-seven middle row also leaves 90 credits, not
the claimed 190, because the missing jackpot constant turns
`totalWin` into NaN and the win branch is not taken. -/
theorem credits_after_spin_eval :
    (handleSpin s100).1.credits = 90 ∧
    (handleSpinEnd (handleSpin s100).1 (some gNoWin)).credits = 90 ∧
    (handleSpinEnd (handleSpin s100).1 (some gMidSeven)).credits = 90 := by
  decide

/-- C4: `handleSpin` rejects a request while the spin-lock is held
with SpinInProgress, rejects a request with credits below the bet
of 10 with InsufficientCredits (when not locked), and in every
rejected case returns the state untouched: credits, highlights,
the animation counter and everything else are unchanged. -/
theorem handleSpin_rejects (s : RoundState) :
    (s.spinning = true → handleSpin s = (s, some SpinError.SpinInProgress)) ∧
    (s.spinning = false → s.credits < 10 →
      handleSpin s = (s, some SpinError.InsufficientCredits)) ∧
    (s.spinning = true ∨ s.credits < 10 → (handleSpin s).1 = s) := by
  refine ⟨?_, ?_, ?_⟩
  · intro h
    simp [handleSpin, h]
  · intro h hc
    simp [handleSpin, h, hc]
  · rintro (h | hc)
    · simp [handleSpin, h]
    · by_cases h : s.spinning = true
      · simp [handleSpin, h]
      · simp [handleSpin, h, hc]

/-- Witness for C4 at two concrete states: one locked, one with
only 7 credits. -/
theorem handleSpin_rejects_witness :
    handleSpin sSpinning = (sSpinning, some SpinError.SpinInProgress) ∧
    handleSpin sPoor = (sPoor, some SpinError.InsufficientCredits) :=
  ⟨(handleSpin_rejects sSpinning).1 rfl,
   (handleSpin_rejects sPoor).2.1 rfl (by decide)⟩

/-- C10: when the completion handler gets a null result from
`getResult()` (engine not initialized), it only releases the
spin-lock: credits, the win messages, the highlight overlays and
the animation counter are all left unchanged, and no payout is
awarded. -/
theorem handleSpinEnd_null_result (s : RoundState) :
    (handleSpinEnd s none).credits = s.credits ∧
    (handleSpinEnd s none).winMessages = s.winMessages ∧
    (handleSpinEnd s none).highlights = s.highlights ∧
    (handleSpinEnd s none).spinsStarted = s.spinsStarted ∧
    (handleSpinEnd s none).spinning = false :=
  ⟨rfl, rfl, rfl, rfl, rfl⟩

/-! ## Claims about the highlight layer -/

/-- C9: `highlightPaylines` never touches the reel engine, replaces
whatever overlays were previously drawn with exactly one overlay
per given line regardless of the prior layer content, clears all
overlays on empty input regardless of prior state, and calling it
twice with the same input leaves the same overlays as calling it
once. -/
theorem highlightPaylines_replaces (c : Canvas) (ls : List PayLine)
    (L : List Overlay) :
    (canvasHighlight c ls).engine = c.engine ∧
    highlightPaylines (some L) ls = some (ls.map renderLine) ∧
    highlightPaylines (some L) [] = some [] ∧
    canvasHighlight (canvasHighlight c ls) ls = canvasHighlight c ls := by
  have key : ∀ (L' : List Overlay), highlightPaylines (some L') ls =
      some (ls.map renderLine) := by
    intro L'
    unfold highlightPaylines
    by_cases h : ls.isEmpty
    · rw [if_pos h, List.isEmpty_iff.mp h]
      rfl
    · rw [if_neg h]
  have idem : highlightPaylines (highlightPaylines c.layer ls) ls =
      highlightPaylines c.layer ls := by
    cases hl : c.layer with
    | none => rfl
    | some L' =>
        rw [key L']
        exact key (ls.map renderLine)
  refine ⟨rfl, key L, rfl, ?_⟩
  show Canvas.mk c.engine (highlightPaylines (highlightPaylines c.layer ls) ls) =
    Canvas.mk c.engine (highlightPaylines c.layer ls)
  rw [idem]

/-! ## Engine lemmas -/

/-- The recycle guard `sprite.y < 0` of `updateSpin` can never
fire: the computed y is a remainder plus 50 px, hence positive, so
a tick only repositions a sprite and never redraws its symbol nor
consumes a random draw. -/
theorem tickSprite_eq (rng : Nat → Symbol) (p j : Nat) (s : Sprite) (idx : Nat) :
    tickSprite rng p j s idx =
      ({ s with y10 := (j * 1000 + p * 100) % 3000 + 500 }, idx) := by
  unfold tickSprite
  exact if_neg (Nat.not_lt_zero _)

/-- A reel that is not spinning is left untouched by a tick. -/
theorem tickReel_of_not_spinning (rng : Nat → Symbol) (r : Reel) (idx : Nat)
    (h : r.spinning = false) : tickReel rng r idx = (r, idx) := by
  simp [tickReel, h]

/-- A tick never changes a sprite symbol. -/
theorem tickReel_sym (rng : Nat → Symbol) (r : Reel) (idx : Nat) (j : Fin 3) :
    ((tickReel rng r idx).1.sp j).sym = (r.sp j).sym := by
  cases h : r.spinning with
  | true => fin_cases j <;> simp [tickReel, h, tickSprite_eq]
  | false => rw [tickReel_of_not_spinning rng r idx h]

/-- A tick never consumes a random draw. -/
theorem tickReel_idx (rng : Nat → Symbol) (r : Reel) (idx : Nat) :
    (tickReel rng r idx).2 = idx := by
  cases h : r.spinning with
  | true => simp [tickReel, h, tickSprite_eq]
  | false => rw [tickReel_of_not_spinning rng r idx h]

/-- One tick preserves the `ReelRunningAt` relation, advancing the
tick count. -/
theorem tickReel_running_step {T n : Nat} (rng : Nat → Symbol) (idx : Nat)
    {r : Reel} (h : ReelRunningAt T n r) :
    ReelRunningAt T (n + 1) (tickReel rng r idx).1 := by
  obtain ⟨hT, hc⟩ := h
  rcases hc with ⟨hs, hlt, hp⟩ | ⟨hs, hle, hp⟩
  · by_cases hstop : T ≤ 3 * n + 3
    · refine ⟨?_, Or.inr ⟨?_, by omega, ?_⟩⟩ <;>
        simp [tickReel, hs, hT, hp, hstop]
    · refine ⟨?_, Or.inl ⟨?_, by omega, ?_⟩⟩ <;>
        (simp [tickReel, hs, hT, hp, hstop]; try omega)
  · rw [tickReel_of_not_spinning rng r idx hs]
    exact ⟨hT, Or.inr ⟨hs, by omega, hp⟩⟩

/-- The three reels after one `updateSpin` callback, in the order
the source advances them. -/
theorem updateSpin_reels (rng : Nat → Symbol) (e : Engine) :
    (updateSpin rng e).reels 0 = (tickReel rng (e.reels 0) e.rngIdx).1 ∧
    (updateSpin rng e).reels 1 =
      (tickReel rng (e.reels 1) (tickReel rng (e.reels 0) e.rngIdx).2).1 ∧
    (updateSpin rng e).reels 2 =
      (tickReel rng (e.reels 2)
        (tickReel rng (e.reels 1) (tickReel rng (e.reels 0) e.rngIdx).2).2).1 := by
  unfold updateSpin tickReels
  split <;> exact ⟨rfl, rfl, rfl⟩

/-- While some reel was spinning on entry, `updateSpin` keeps the
ticker registration and fires nothing. -/
theorem updateSpin_keep (rng : Nat → Symbol) (e : Engine)
    (hw : ((e.reels 0).spinning || (e.reels 1).spinning || (e.reels 2).spinning)
      = true) :
    (updateSpin rng e).tickerActive = e.tickerActive ∧
    (updateSpin rng e).spinEnds = e.spinEnds := by
  unfold updateSpin
  rw [if_pos hw]
  exact ⟨rfl, rfl⟩

/-- The `randSymbol()` cursor never moves during a tick. -/
theorem updateSpin_rngIdx (rng : Nat → Symbol) (e : Engine) :
    (updateSpin rng e).rngIdx = e.rngIdx := by
  unfold updateSpin tickReels
  split <;> simp [tickReel_idx]

/-- When no reel was spinning on entry, `updateSpin` removes
itself from the ticker, fires the one completion notification and
leaves every reel untouched. -/
theorem updateSpin_fire (rng : Nat → Symbol) (e : Engine)
    (h0 : (e.reels 0).spinning = false) (h1 : (e.reels 1).spinning = false)
    (h2 : (e.reels 2).spinning = false) :
    (updateSpin rng e).tickerActive = false ∧
    (updateSpin rng e).spinEnds = e.spinEnds + 1 ∧
    (updateSpin rng e).reels 0 = e.reels 0 ∧
    (updateSpin rng e).reels 1 = e.reels 1 ∧
    (updateSpin rng e).reels 2 = e.reels 2 := by
  unfold updateSpin tickReels
  rw [h0, h1, h2]
  rw [tickReel_of_not_spinning rng _ _ h0]
  rw [tickReel_of_not_spinning rng _ _ h1]
  rw [tickReel_of_not_spinning rng _ _ h2]
  exact ⟨rfl, rfl, rfl, rfl, rfl⟩

/-- Unfolding one frame off the end of a run. -/
theorem run_succ (rng : Nat → Symbol) (n : Nat) (e : Engine) :
    run rng (n + 1) e = step rng (run rng n e) :=
  Function.iterate_succ_apply' _ _ _

/-- The engine invariant holds at every tick of a spin started by
`spinReels`. -/
theorem engineInv_spin (rnd : Fin 3 → Nat) (rng : Nat → Symbol) (e : Engine) :
    ∀ n, EngineInv rnd n (run rng n (spinReels rnd e)) := by
  intro n
  induction n with
  | zero =>
    left
    refine ⟨rfl, rfl, ?_, ?_, ?_⟩ <;>
      exact ⟨rfl, Or.inl ⟨rfl, by simp [targetOf], rfl⟩⟩
  | succ n ih =>
    rw [run_succ]
    set E := run rng n (spinReels rnd e) with hE
    rcases ih with ⟨ht, hse, h0, h1, h2⟩ | ⟨ht, hse, hb0, hb1, hb2, h0, h1, h2⟩
    · have hstep : step rng E = updateSpin rng E := by simp [step, ht]
      rw [hstep]
      by_cases hw : ((E.reels 0).spinning || (E.reels 1).spinning ||
          (E.reels 2).spinning) = true
      · left
        obtain ⟨hr0, hr1, hr2⟩ := updateSpin_reels rng E
        obtain ⟨hta, hses⟩ := updateSpin_keep rng E hw
        refine ⟨by rw [hta, ht], by rw [hses, hse], ?_, ?_, ?_⟩
        · rw [hr0]; exact tickReel_running_step rng _ h0
        · rw [hr1]; exact tickReel_running_step rng _ h1
        · rw [hr2]; exact tickReel_running_step rng _ h2
      · simp only [Bool.or_eq_true, not_or, Bool.not_eq_true] at hw
        obtain ⟨⟨hsp0, hsp1⟩, hsp2⟩ := hw
        have hq0 : targetOf rnd 0 ≤ 3 * n ∧ (E.reels 0).pos10 = targetOf rnd 0 := by
          rcases h0.2 with ⟨hs, _, _⟩ | ⟨_, hle, hp⟩
          · rw [hs] at hsp0; cases hsp0
          · exact ⟨hle, hp⟩
        have hq1 : targetOf rnd 1 ≤ 3 * n ∧ (E.reels 1).pos10 = targetOf rnd 1 := by
          rcases h1.2 with ⟨hs, _, _⟩ | ⟨_, hle, hp⟩
          · rw [hs] at hsp1; cases hsp1
          · exact ⟨hle, hp⟩
        have hq2 : targetOf rnd 2 ≤ 3 * n ∧ (E.reels 2).pos10 = targetOf rnd 2 := by
          rcases h2.2 with ⟨hs, _, _⟩ | ⟨_, hle, hp⟩
          · rw [hs] at hsp2; cases hsp2
          · exact ⟨hle, hp⟩
        obtain ⟨hta, hses, hr0, hr1, hr2⟩ := updateSpin_fire rng E hsp0 hsp1 hsp2
        right
        refine ⟨hta, by rw [hses, hse], by omega, by omega, by omega, ?_, ?_, ?_⟩
        · rw [hr0]; exact ⟨hsp0, hq0.2, h0.1⟩
        · rw [hr1]; exact ⟨hsp1, hq1.2, h1.1⟩
        · rw [hr2]; exact ⟨hsp2, hq2.2, h2.1⟩
    · have hstep : step rng E = E := by simp [step, ht]
      rw [hstep]
      right
      exact ⟨ht, hse, by omega, by omega, by omega, h0, h1, h2⟩

/-- Once every target has been reached by tick `n`, the completion
notification has fired by tick `n + 1`. -/
theorem spinEnds_fired (rnd : Fin 3 → Nat) (rng : Nat → Symbol) (e : Engine)
    (n : Nat) (h0 : targetOf rnd 0 ≤ 3 * n) (h1 : targetOf rnd 1 ≤ 3 * n)
    (h2 : targetOf rnd 2 ≤ 3 * n) :
    (run rng (n + 1) (spinReels rnd e)).spinEnds = 1 := by
  have inv := engineInv_spin rnd rng e n
  rw [run_succ]
  set E := run rng n (spinReels rnd e) with hE
  rcases inv with ⟨ht, hse, hr0, hr1, hr2⟩ | ⟨ht, hse, _⟩
  · have hsp0 : (E.reels 0).spinning = false := by
      rcases hr0.2 with ⟨_, hlt, _⟩ | ⟨hs, _, _⟩
      · omega
      · exact hs
    have hsp1 : (E.reels 1).spinning = false := by
      rcases hr1.2 with ⟨_, hlt, _⟩ | ⟨hs, _, _⟩
      · omega
      · exact hs
    have hsp2 : (E.reels 2).spinning = false := by
      rcases hr2.2 with ⟨_, hlt, _⟩ | ⟨hs, _, _⟩
      · omega
      · exact hs
    have hstep : step rng E = updateSpin rng E := by simp [step, ht]
    rw [hstep, (updateSpin_fire rng E hsp0 hsp1 hsp2).2.1, hse]
  · have hstep : step rng E = E := by simp [step, ht]
    rw [hstep]
    exact hse

/-! ## Claims about the reel engine -/

set_option maxRecDepth 2000 in
/-- C5: `getResult` does not fail when called while a reel is
still in motion — it is total in the engine state and happily
returns a grid.  Five ticks into a spin, reel 0 is still spinning
(position 1.5 of target 20), yet `getResult` returns the y-sorted
3x3 grid, here a transient downward rotation of the pre-spin
symbols; no EngineNotSettled condition exists anywhere in the
code. -/
theorem getResult_returns_grid_mid_spin :
    ((run rngC 5 (spinReels rnd0 (initEngine symsA))).reels 0).spinning = true ∧
    getResult (run rngC 5 (spinReels rnd0 (initEngine symsA))) =
      ![![Symbol.bar, Symbol.seven, Symbol.cherry],
        ![Symbol.cherry, Symbol.lemon, Symbol.bar],
        ![Symbol.lemon, Symbol.bar, Symbol.seven]] := by
  decide

set_option maxRecDepth 4000 in
/-- C6 counterexample: with random target draws 9, 0, 0 the
targets are 29, 25, 30, and after 84 ticks (position 25.2) reel 1
has already stopped while reel 0 is still in motion — reel 1 stops
strictly earlier than reel 0, refuting left-to-right stop order
for this spin. -/
theorem reel_order_counterexample :
    ((run rngC 84 (spinReels rnd900 (initEngine symsA))).reels 1).spinning = false ∧
    ((run rngC 84 (spinReels rnd900 (initEngine symsA))).reels 0).spinning = true := by
  decide

/-- C6 amended: reel `i+1` stops no earlier than reel `i`
whenever the random extra offsets drawn in `spinReels` satisfy
`rnd i ≤ rnd (i+1) + 5` (so in particular for equal draws): at
every tick at which the later reel has stopped, the earlier one
has stopped too.  The draws range over 0..9, so this can fail when
`rnd i` exceeds `rnd (i+1) + 5`, as the counterexample shows. -/
theorem reels_stop_left_to_right (rnd : Fin 3 → Nat) (rng : Nat → Symbol)
    (e : Engine) (n : Nat)
    (h01 : rnd 0 ≤ rnd 1 + 5) (h12 : rnd 1 ≤ rnd 2 + 5) :
    (((run rng n (spinReels rnd e)).reels 1).spinning = false →
      ((run rng n (spinReels rnd e)).reels 0).spinning = false) ∧
    (((run rng n (spinReels rnd e)).reels 2).spinning = false →
      ((run rng n (spinReels rnd e)).reels 1).spinning = false) := by
  have hT01 : targetOf rnd 0 ≤ targetOf rnd 1 := by
    show (20 + 0 * 5 + rnd 0) * 10 ≤ (20 + 1 * 5 + rnd 1) * 10
    omega
  have hT12 : targetOf rnd 1 ≤ targetOf rnd 2 := by
    show (20 + 1 * 5 + rnd 1) * 10 ≤ (20 + 2 * 5 + rnd 2) * 10
    omega
  rcases engineInv_spin rnd rng e n with ⟨_, _, h0, h1, h2⟩ |
    ⟨_, _, _, _, _, h0, h1, h2⟩
  · constructor
    · intro hstop1
      rcases h1.2 with ⟨hs, _, _⟩ | ⟨_, hle1, _⟩
      · rw [hs] at hstop1; cases hstop1
      · rcases h0.2 with ⟨_, hlt0, _⟩ | ⟨hs0, _, _⟩
        · omega
        · exact hs0
    · intro hstop2
      rcases h2.2 with ⟨hs, _, _⟩ | ⟨_, hle2, _⟩
      · rw [hs] at hstop2; cases hstop2
      · rcases h1.2 with ⟨_, hlt1, _⟩ | ⟨hs1, _, _⟩
        · omega
        · exact hs1
  · exact ⟨fun _ => h0.1, fun _ => h1.1⟩

set_option maxRecDepth 4000 in
/-- Witness for the amended C6 at the all-zero draws: after 100
ticks (position 30) reel 1 has stopped, and the theorem then
forces reel 0 to have stopped as well. -/
theorem reels_stop_left_to_right_witness :
    ((run rngC 100 (spinReels rnd0 (initEngine symsA))).reels 1).spinning = false ∧
    ((run rngC 100 (spinReels rnd0 (initEngine symsA))).reels 0).spinning = false :=
  ⟨by decide,
   (reels_stop_left_to_right rnd0 rngC (initEngine symsA) 100
      (by decide) (by decide)).1 (by decide)⟩

/-- C7: over any whole spin the completion notification fires at
most once; whenever it has fired, every reel is at rest exactly on
its stop target (so the signal comes only after all reels reached
their targets, never per-reel); and once the tick count passes the
largest target it has fired exactly once. -/
theorem spinEnd_fires_exactly_once (rnd : Fin 3 → Nat) (rng : Nat → Symbol)
    (e : Engine) (n : Nat) :
    (run rng n (spinReels rnd e)).spinEnds ≤ 1 ∧
    ((run rng n (spinReels rnd e)).spinEnds = 1 →
      ∀ i : Fin 3, ((run rng n (spinReels rnd e)).reels i).spinning = false ∧
        ((run rng n (spinReels rnd e)).reels i).pos10 =
          ((run rng n (spinReels rnd e)).reels i).target10) ∧
    (maxTargetOf rnd < n → (run rng n (spinReels rnd e)).spinEnds = 1) := by
  refine ⟨?_, ?_, ?_⟩
  · rcases engineInv_spin rnd rng e n with ⟨_, h, _⟩ | ⟨_, h, _⟩ <;> omega
  · intro hfired i
    rcases engineInv_spin rnd rng e n with ⟨_, h, _⟩ |
      ⟨_, _, _, _, _, h0, h1, h2⟩
    · omega
    · fin_cases i
      · exact ⟨h0.1, h0.2.1.trans h0.2.2.symm⟩
      · exact ⟨h1.1, h1.2.1.trans h1.2.2.symm⟩
      · exact ⟨h2.1, h2.2.1.trans h2.2.2.symm⟩
  · intro hmax
    obtain ⟨m, rfl⟩ : ∃ m, n = m + 1 := ⟨n - 1, by omega⟩
    have t0 : targetOf rnd 0 ≤ maxTargetOf rnd := le_max_left _ _
    have t1 : targetOf rnd 1 ≤ maxTargetOf rnd :=
      le_trans (le_max_left _ _) (le_max_right _ _)
    have t2 : targetOf rnd 2 ≤ maxTargetOf rnd :=
      le_trans (le_max_right _ _) (le_max_right _ _)
    exact spinEnds_fired rnd rng e m (by omega) (by omega) (by omega)

/-- Witness for C7: with all-zero draws the largest target is 30
(300 tenths), and 301 ticks into the spin the notification has
fired exactly once, with reel 2 settled. -/
theorem spinEnd_fires_exactly_once_witness :
    (run rngC 301 (spinReels rnd0 (initEngine symsA))).spinEnds = 1 ∧
    ((run rngC 301 (spinReels rnd0 (initEngine symsA))).reels 2).spinning = false :=
  have h := spinEnd_fires_exactly_once rnd0 rngC (initEngine symsA) 301
  ⟨h.2.2 (by decide), (h.2.1 (h.2.2 (by decide)) 2).1⟩

/-- C8: no symbol cell is ever recycled or redrawn during a spin.
The recycle guard `sprite.y < 0` of `updateSpin` is unreachable
(y is a remainder plus 50), so for every spin, every tick count,
every reel and every sprite, the stored symbol is exactly the one
from before the spin started, and the `randSymbol()` stream is
never consumed — the settled symbols are a repositioning of the
pre-spin symbols, not fresh draws. -/
theorem spin_symbols_never_redrawn (rng : Nat → Symbol) (rnd : Fin 3 → Nat)
    (e : Engine) (n : Nat) (i j : Fin 3) :
    (((run rng n (spinReels rnd e)).reels i).sp j).sym = ((e.reels i).sp j).sym ∧
    (run rng n (spinReels rnd e)).rngIdx = e.rngIdx := by
  induction n with
  | zero => exact ⟨rfl, rfl⟩
  | succ n ih =>
    rw [run_succ]
    set E := run rng n (spinReels rnd e) with hE
    by_cases ht : E.tickerActive = true
    · have hstep : step rng E = updateSpin rng E := by simp [step, ht]
      rw [hstep]
      have hsym : ∀ k : Fin 3, (((updateSpin rng E).reels i).sp k).sym =
          ((E.reels i).sp k).sym := by
        intro k
        obtain ⟨hr0, hr1, hr2⟩ := updateSpin_reels rng E
        fin_cases i
        · show (((updateSpin rng E).reels 0).sp k).sym = ((E.reels 0).sp k).sym
          rw [hr0, tickReel_sym]
        · show (((updateSpin rng E).reels 1).sp k).sym = ((E.reels 1).sp k).sym
          rw [hr1, tickReel_sym]
        · show (((updateSpin rng E).reels 2).sp k).sym = ((E.reels 2).sp k).sym
          rw [hr2, tickReel_sym]
      refine ⟨?_, ?_⟩
      · rw [hsym j]
        exact ih.1
      · rw [updateSpin_rngIdx]
        exact ih.2
    · have hstep : step rng E = E := by simp [step, ht]
      rw [hstep]
      exact ih

end SlotGame
